import Mathlib

/-!
Verification of the OAuth2 authorization-endpoint core (authorizations.go,
provider.go) against its natural-language specification.

The Go source is shallowly embedded: the handler functions become pure Lean
functions from a Provider record and a Request to a Response, paired with the
list of Provider calls they perform (so that frame conditions about state
mutation are provable).  Go stdlib pieces (net/url) are modelled by small
executable approximations faithful to the operations the source uses.
-/

/-- Model of Go net/url URL as consumed by authorizations.go: scheme,
host+path (everything between the scheme separator and the query), raw query
and fragment.  Rendering concatenates the parts the way url.URL.String does
for the URLs this server manipulates. -/
structure URL where
  scheme : String
  hostPath : String
  rawQuery : String
  fragment : String
deriving DecidableEq, Repr, Inhabited

/-- Uppercase hexadecimal digit for a value below 16. -/
def hexDigit (n : Nat) : Char :=
  if n < 10 then Char.ofNat (48 + n) else Char.ofNat (55 + n)

/-- UTF-8 encoding of a code point, by value range. -/
def utf8Bytes (n : Nat) : List Nat :=
  if n < 128 then [n]
  else if n < 2048 then [192 + n / 64, 128 + n % 64]
  else if n < 65536 then [224 + n / 4096, 128 + n / 64 % 64, 128 + n % 64]
  else [240 + n / 262144, 128 + n / 4096 % 64, 128 + n / 64 % 64, 128 + n % 64]

/-- Bytes url's encodeFragment mode leaves unescaped when URL.String renders
the fragment: ASCII alphanumerics, the unreserved marks, the RFC 3986
reserved set it permits in fragments, and the sub-delims exceptions.  The
hash sign is NOT among them, so a fragment beginning with a hash renders
with a percent-escape. -/
def isFragmentSafeByte (b : Nat) : Bool :=
  (65 ≤ b && b ≤ 90) || (97 ≤ b && b ≤ 122) || (48 ≤ b && b ≤ 57) ||
    b == 45 || b == 95 || b == 46 || b == 126 ||
    b == 36 || b == 38 || b == 43 || b == 44 || b == 47 || b == 58 ||
    b == 59 || b == 61 || b == 63 || b == 64 ||
    b == 33 || b == 40 || b == 41 || b == 42

/-- Escape one byte for the fragment component: safe bytes pass through,
everything else is percent-encoded. -/
def escFragByte (b : Nat) : String :=
  if isFragmentSafeByte b then String.singleton (Char.ofNat b)
  else "%" ++ String.singleton (hexDigit (b / 16)) ++ String.singleton (hexDigit (b % 16))

/-- Fragment escaping over a character list, byte-wise on the UTF-8
encoding. -/
def escapeFragmentChars : List Char → String
  | [] => ""
  | c :: rest =>
    String.join ((utf8Bytes c.toNat).map escFragByte) ++ escapeFragmentChars rest

/-- Model of the fragment escaping url.URL.String performs (escape with
encodeFragment). -/
def escapeFragment (s : String) : String := escapeFragmentChars s.data

/-- Model of url.URL.String: scheme://hostPath?rawQuery#fragment, each
separator present only when its part is nonempty.  The raw query is written
verbatim; the fragment is percent-escaped with the fragment byte set, as
url.URL.String does in every released Go version — in particular a stored
fragment that itself begins with a hash renders as a percent-escaped
hash. -/
def urlString (u : URL) : String :=
  (if u.scheme = "" then "" else u.scheme ++ "://")
    ++ u.hostPath
    ++ (if u.rawQuery = "" then "" else "?" ++ u.rawQuery)
    ++ (if u.fragment = "" then "" else "#" ++ escapeFragment u.fragment)

/-- Whether the first character list is a prefix of the second. -/
def isPrefixList : List Char → List Char → Bool
  | [], _ => true
  | _ :: _, [] => false
  | a :: as, b :: bs => a == b && isPrefixList as bs

/-- Split a character list at the first occurrence of a nonempty separator:
the part before it and the part after it, when it occurs. -/
def splitAtSub (sep : List Char) : List Char → Option (List Char × List Char)
  | [] => none
  | c :: rest =>
    if isPrefixList sep (c :: rest) then some ([], (c :: rest).drop sep.length)
    else
      match splitAtSub sep rest with
      | some (pre, post) => some (c :: pre, post)
      | none => none

/-- Split a string at the first occurrence of a nonempty separator, returning
the part before it and, when the separator occurs, the part after it. -/
def splitFirst (s sep : String) : String × Option String :=
  match splitAtSub sep.data s.data with
  | none => (s, none)
  | some (pre, post) => (String.mk pre, some (String.mk post))

/-- Whether the string contains an ASCII control character, the condition
under which Go's url.Parse rejects a URL. -/
def hasCtlChar (s : String) : Bool :=
  s.data.any (fun c => c.toNat < 32 || c.toNat == 127)

/-- Model of url.Parse: fails on control characters, otherwise splits off the
fragment at the first hash, the query at the first question mark, and the
scheme at the scheme separator.  Parsing the empty string succeeds and yields
the empty URL, as url.Parse does. -/
def urlParse (s : String) : Option URL :=
  if hasCtlChar s then none
  else
    let (body, frag) := splitFirst s "#"
    let (beforeQuery, query) := splitFirst body "?"
    let (scheme, hp) :=
      match splitFirst beforeQuery "://" with
      | (sc, some rest) => (sc, rest)
      | (_, none) => ("", beforeQuery)
    some ⟨scheme, hp, query.getD "", frag.getD ""⟩

/-- Bytes url.QueryEscape leaves untouched: ASCII letters, digits and the
unreserved marks. -/
def isUnreservedByte (b : Nat) : Bool :=
  (65 ≤ b && b ≤ 90) || (97 ≤ b && b ≤ 122) || (48 ≤ b && b ≤ 57) ||
    b == 45 || b == 95 || b == 46 || b == 126

/-- Escape a single byte the way url.QueryEscape does: unreserved bytes pass
through, space becomes a plus, everything else is percent-encoded. -/
def escByte (b : Nat) : String :=
  if isUnreservedByte b then String.singleton (Char.ofNat b)
  else if b == 32 then "+"
  else "%" ++ String.singleton (hexDigit (b / 16)) ++ String.singleton (hexDigit (b % 16))

/-- Model of url.QueryEscape over the UTF-8 bytes of the string. -/
def queryEscape (s : String) : String :=
  String.join (s.data.map (fun c => String.join ((utf8Bytes c.toNat).map escByte)))

/-- Hex digit value of a character, when it is one. -/
def hexVal (c : Char) : Option Nat :=
  if 48 ≤ c.toNat && c.toNat ≤ 57 then some (c.toNat - 48)
  else if 65 ≤ c.toNat && c.toNat ≤ 70 then some (c.toNat - 55)
  else if 97 ≤ c.toNat && c.toNat ≤ 102 then some (c.toNat - 87)
  else none

/-- Percent-decoding over a character list: %XX becomes the byte value, plus
becomes space, anything else passes through. -/
def percentDecodeChars : List Char → List Char
  | [] => []
  | '%' :: h :: l :: rest =>
    match hexVal h, hexVal l with
    | some a, some b => Char.ofNat (16 * a + b) :: percentDecodeChars rest
    | _, _ => '%' :: percentDecodeChars (h :: l :: rest)
  | '+' :: rest => ' ' :: percentDecodeChars rest
  | c :: rest => c :: percentDecodeChars rest

/-- Model of url.QueryUnescape (approximation: malformed escapes pass
through instead of failing; no call site of the embedded code depends on the
failure case). -/
def percentDecode (s : String) : String :=
  String.mk (percentDecodeChars s.data)

/-- Parse one key=value segment of a query string. -/
def parseQueryPair (s : String) : String × String :=
  match splitFirst s "=" with
  | (k, some v) => (percentDecode k, percentDecode v)
  | (k, none) => (percentDecode k, "")

/-- Split a character list on every occurrence of a separator character. -/
def splitAllChar (sep : Char) : List Char → List (List Char)
  | [] => [[]]
  | c :: rest =>
    if c == sep then [] :: splitAllChar sep rest
    else
      match splitAllChar sep rest with
      | [] => [[c]]
      | p :: ps => (c :: p) :: ps

/-- Model of url.ParseQuery / url.URL.Query: split the raw query on
ampersands, drop empty segments, decode each pair. -/
def parseQuery (raw : String) : List (String × String) :=
  (((splitAllChar '&' raw.data).map String.mk).filter (fun p => p ≠ "")).map parseQueryPair

/-- Model of url.Values.Set: replace every binding of the key with the single
new one. -/
def valuesSet (vs : List (String × String)) (k v : String) : List (String × String) :=
  vs.filter (fun p => p.1 ≠ k) ++ [(k, v)]

/-- Lexicographic order on character lists, by code point. -/
def charListLe : List Char → List Char → Bool
  | [], _ => true
  | _ :: _, [] => false
  | a :: as, b :: bs =>
    if a.toNat < b.toNat then true
    else if b.toNat < a.toNat then false
    else charListLe as bs

/-- Lexicographic order on strings, the order url.Values.Encode sorts keys
with. -/
def strLe (a b : String) : Bool := charListLe a.data b.data

/-- Insertion into a key-sorted association list, used to model the key
sorting url.Values.Encode performs. -/
def insertSorted (p : String × String) : List (String × String) → List (String × String)
  | [] => [p]
  | q :: rest => if strLe p.1 q.1 then p :: q :: rest else q :: insertSorted p rest

/-- Sort an association list by key. -/
def sortByKey (vs : List (String × String)) : List (String × String) :=
  vs.foldr insertSorted []

/-- Model of url.Values.Encode: escape keys and values, join each pair with
an equals sign and the pairs with ampersands, keys in sorted order. -/
def valuesEncode (vs : List (String × String)) : String :=
  String.intercalate "&"
    ((sortByKey vs).map (fun p => queryEscape p.1 ++ "=" ++ queryEscape p.2))

/-- Scope from provider.go: a named permission with a description. -/
structure Scope where
  id : String
  desc : String
deriving DecidableEq, Repr, Inhabited

/-- Client from the types package as consumed by authorizations.go: registry
record with the registered redirect URL (a parsed URL, used both for the
byte-equality check and as the redirect target). -/
structure Client where
  id : String
  name : String
  desc : String
  profileImgURL : String
  homepageURL : String
  redirectURL : URL
deriving DecidableEq, Repr, Inhabited

/-- Token as consumed by implicitGrant: opaque value, wire type, lifetime in
whole seconds (the source formats ExpiresIn.Seconds with FormatFloat, which
prints whole-second durations without a decimal point) and scope set. -/
structure Token where
  value : String
  type : String
  expiresInSeconds : Nat
  scope : List Scope
deriving DecidableEq, Repr, Inhabited

/-- Grant code record as consumed by CreateGrant (grantCode.Code). -/
structure GrantCode where
  code : String
deriving DecidableEq, Repr, Inhabited

/-- TokenType from provider.go. -/
inductive TokenType where
  | access
  | refresh
deriving DecidableEq, Repr

/-- AuthzError: RFC 6749 error value with wire code, description and the
state echo. -/
structure AuthzError where
  code : String
  desc : String
  state : String
deriving DecidableEq, Repr, Inhabited

/-- Modelled from the spec: errors.go is not under src (only its callers
are).  Missing client_id error, rendered; wire code invalid_request. -/
def ErrClientIDMissing : AuthzError :=
  ⟨"invalid_request", "client_id is required by this authorization server.", ""⟩

/-- Modelled from the spec: errors.go is not under src.  Unknown client
error, rendered; wire code invalid_request. -/
def ErrClientIDNotFound : AuthzError :=
  ⟨"invalid_request", "client_id was not found in our database.", ""⟩

/-- Modelled from the spec: errors.go is not under src.  Invalid or
non-HTTPS redirect URI, rendered; wire code access_denied; description as
asserted by the repository's tests. -/
def ErrRedirectURLInvalid : AuthzError :=
  ⟨"access_denied",
    "3rd-party client app provided an invalid redirect_uri. It does not comply with http://tools.ietf.org/html/rfc3986#section-4.3 or does not use HTTPS",
    ""⟩

/-- Modelled from the spec: errors.go is not under src.  Mismatched redirect
URI, rendered; wire code access_denied; description as asserted by the
repository's tests. -/
def ErrRedirectURLMismatch : AuthzError :=
  ⟨"access_denied",
    "3rd-party client app provided a redirect_uri that does not match the URI registered for this client in our database.",
    ""⟩

/-- Modelled from the spec: errors.go is not under src.  Missing state,
redirected; wire code invalid_request; description as asserted by the
repository's tests. -/
def ErrStateRequired (state : String) : AuthzError :=
  ⟨"invalid_request", "state parameter is required by this authorization server.", state⟩

/-- Modelled from the spec: errors.go is not under src.  Missing scope,
redirected; wire code invalid_request; description as asserted by the
repository's tests. -/
def ErrScopeRequired (state : String) : AuthzError :=
  ⟨"invalid_request", "scope parameter is required by this authorization server.", state⟩

/-- Modelled from the spec: errors.go is not under src.  Unsupported
response_type, redirected. -/
def ErrUnsupportedResponseType (state : String) : AuthzError :=
  ⟨"unsupported_response_type", "response_type must be code or token.", state⟩

/-- Modelled from the spec: errors.go is not under src.  Provider failure,
wrapping the underlying cause; wire code server_error. -/
def ErrServerError (state : String) (cause : String) : AuthzError :=
  ⟨"server_error", cause, state⟩

/-- AuthzData from authorizations.go: the data rendered into the consent
form.  Field defaults mirror Go zero values, used when the source builds a
literal with only the Errors field. -/
structure AuthzData where
  client : Client := default
  scopes : List Scope := []
  errors : List AuthzError := []
  grantType : String := ""
  state : String := ""
deriving DecidableEq, Repr, Inhabited

/-- Observable HTTP response of the handlers: an HTML render of the consent
form template over AuthzData, or a redirect to a Location. -/
inductive Response where
  | html (status : Nat) (data : AuthzData)
  | redirect (status : Nat) (location : String)
deriving DecidableEq, Repr

/-- Provider interface as consumed by authorizations.go (the call shapes of
the use sites; errors are strings). -/
structure Provider where
  isUserAuthenticated : Bool
  loginURL : String → String
  clientInfo : String → Except String Client
  scopesInfo : String → Except String (List Scope)
  genAuthzCode : Client → List Scope → Except String GrantCode
  genToken : TokenType → List Scope → Client → Except String Token

/-- One Provider invocation, recorded so that frame conditions about
persistent state are provable: GenAuthzCode and GenToken are the only
mutating calls. -/
inductive PCall where
  | isUserAuthenticated
  | loginURL (refererURL : String)
  | clientInfo (clientID : String)
  | scopesInfo (rawScope : String)
  | genAuthzCode (clientID : String)
  | genToken (clientID : String)
deriving DecidableEq, Repr

/-- Whether a Provider call mutates persistent grant or token state. -/
def isGenCall : PCall → Bool
  | PCall.genAuthzCode _ => true
  | PCall.genToken _ => true
  | _ => false

/-- Modelled from the spec: EncodeErrInURI lives in errors.go, not under
src.  It sets error, error_description and state into the given url.Values
copy and returns it.  Every use site in authorizations.go passes the copy
returned by URL.Query() and never writes the result back into the URL. -/
def EncodeErrInURI (vs : List (String × String)) (e : AuthzError) : List (String × String) :=
  valuesSet (valuesSet (valuesSet vs "error" e.code) "error_description" e.desc) "state" e.state

/-- Modelled from the spec: StringifyScopes is not under src; the wire form
of a scope set is the space-separated list of scope identifiers. -/
def StringifyScopes (scopes : List Scope) : String :=
  String.intercalate " " (scopes.map (fun s => s.id))

/-- HTTP request as consumed by CreateGrant: method, the request URL string
(for the login referer) and the form/query parameters. -/
structure Request where
  method : String
  url : String
  form : List (String × String)
deriving DecidableEq, Repr, Inhabited

/-- Model of req.FormValue: first binding of the key, or the empty string. -/
def formValue (req : Request) (k : String) : String :=
  ((req.form.find? (fun p => p.1 = k)).map (fun p => p.2)).getD ""

/-- Lookup in the params map built by CreateGrant (comma-ok form of a Go map
index). -/
def getParam (params : List (String × String)) (k : String) : Option String :=
  (params.find? (fun p => p.1 = k)).map (fun p => p.2)

/-- The Go source guards the client-not-found render with (ampersand cinfo)
== nil; the address of a local variable is never nil in Go, so that
condition is constantly false.  The constant keeps the dead branch visible
in the embedding. -/
def cinfoAddrIsNil : Bool := false

/-- Straight-line continuation of authCodeGrant1 below the redirect-URI
resolution (authorizations.go from the scheme check to the returned
AuthzData), abstracted over the resolved redirect URL. -/
def authCodeGrant1Cont (p : Provider) (params : List (String × String))
    (clientID : String) (cinfo : Client) (redirectURL : URL) :
    Except Response AuthzData × List PCall :=
  if redirectURL.scheme ≠ "https" then
    (Except.error (Response.html 200 ⟨default, [], [ErrRedirectURLInvalid], "", ""⟩),
      [PCall.clientInfo clientID])
  else if urlString redirectURL ≠ urlString cinfo.redirectURL then
    (Except.error (Response.html 200 ⟨default, [], [ErrRedirectURLMismatch], "", ""⟩),
      [PCall.clientInfo clientID])
  else
    let state := (getParam params "state").getD ""
    if state = "" then
      -- EncodeErrInURI mutates a copy produced by Query(); the source never
      -- writes it back, so the redirect carries the URL unchanged.
      let _ := EncodeErrInURI (parseQuery redirectURL.rawQuery) (ErrStateRequired state)
      (Except.error (Response.redirect 302 (urlString redirectURL)),
        [PCall.clientInfo clientID])
    else
      let grantType := (getParam params "response_type").getD ""
      if grantType ≠ "code" ∧ grantType ≠ "token" then
        let _ := EncodeErrInURI (parseQuery redirectURL.rawQuery)
          (ErrUnsupportedResponseType state)
        (Except.error (Response.redirect 302 (urlString redirectURL)),
          [PCall.clientInfo clientID])
      else
        let scope := (getParam params "scope").getD ""
        if scope = "" then
          let _ := EncodeErrInURI (parseQuery redirectURL.rawQuery)
            (ErrScopeRequired state)
          (Except.error (Response.redirect 302 (urlString redirectURL)),
            [PCall.clientInfo clientID])
        else
          match p.scopesInfo scope with
          | Except.error e =>
            let _ := EncodeErrInURI (parseQuery redirectURL.rawQuery)
              (ErrServerError state e)
            (Except.error (Response.redirect 302 (urlString redirectURL)),
              [PCall.clientInfo clientID, PCall.scopesInfo scope])
          | Except.ok scopes =>
            (Except.ok ⟨cinfo, scopes, [], grantType, state⟩,
              [PCall.clientInfo clientID, PCall.scopesInfo scope])

/-- Embedding of authCodeGrant1 (authorizations.go): validates the
authorization request parameters in source order and either produces a
response (error: rendered HTML before a trusted redirect target exists, 302
redirect afterwards) or the validated AuthzData.  The second component lists
the Provider calls performed. -/
def authCodeGrant1 (p : Provider) (params : List (String × String)) :
    Except Response AuthzData × List PCall :=
  let clientID := (getParam params "client_id").getD ""
  if clientID = "" then
    (Except.error (Response.html 200 ⟨default, [], [ErrClientIDMissing], "", ""⟩), [])
  else
    match p.clientInfo clientID with
    | Except.error e =>
      (Except.error (Response.html 200 ⟨default, [], [ErrServerError "" e], "", ""⟩),
        [PCall.clientInfo clientID])
    | Except.ok cinfo =>
      if cinfoAddrIsNil then
        (Except.error (Response.html 200 ⟨default, [], [ErrClientIDNotFound], "", ""⟩),
          [PCall.clientInfo clientID])
      else
        match getParam params "redirect_uri" with
        | some u =>
          match urlParse u with
          | none =>
            (Except.error (Response.html 200 ⟨default, [], [ErrRedirectURLInvalid], "", ""⟩),
              [PCall.clientInfo clientID])
          | some r => authCodeGrant1Cont p params clientID cinfo r
        | none => authCodeGrant1Cont p params clientID cinfo cinfo.redirectURL

/-- The query url.Values built by implicitGrant before encoding into the
fragment: access_token, token_type, expires_in, scope and state, in source
Set order. -/
def implicitQuery (token : Token) (state : String) : List (String × String) :=
  valuesSet (valuesSet (valuesSet (valuesSet (valuesSet []
    "access_token" token.value)
    "token_type" token.type)
    "expires_in" (Nat.repr token.expiresInSeconds))
    "scope" (StringifyScopes token.scope))
    "state" state

/-- Embedding of implicitGrant (authorizations.go): mints an access token
and 302-redirects; on success u.Fragment is set to hash ++ encoded pairs, so
URL rendering — which percent-escapes the fragment — emits a hash separator
followed by the escaped stored hash; on error the URL is redirected
unchanged (the EncodeErrInURI copy is dropped). -/
def implicitGrant (p : Provider) (authzData : AuthzData) : Response × List PCall :=
  let u := authzData.client.redirectURL
  match p.genToken TokenType.access authzData.scopes authzData.client with
  | Except.error e =>
    let _ := EncodeErrInURI (parseQuery u.rawQuery) (ErrServerError authzData.state e)
    (Response.redirect 302 (urlString u), [PCall.genToken authzData.client.id])
  | Except.ok token =>
    let u2 : URL :=
      ⟨u.scheme, u.hostPath, u.rawQuery,
        "#" ++ valuesEncode (implicitQuery token authzData.state)⟩
    (Response.redirect 302 (urlString u2), [PCall.genToken authzData.client.id])

/-- The parameter names CreateGrant extracts from the request. -/
def grantParamNames : List String :=
  ["client_id", "state", "redirect_uri", "scope", "response_type"]

/-- The params map CreateGrant builds: FormValue for each recognized name,
so every key is present (with the empty string when the request omits the
parameter). -/
def buildParams (req : Request) : List (String × String) :=
  grantParamNames.map (fun v => (v, formValue req v))

/-- Embedding of CreateGrant (authorizations.go): login redirect for
unauthenticated owners, parameter validation via authCodeGrant1, consent
form on GET, implicit flow on response_type token, otherwise authorization
code minting and the success redirect with code and state in the query. -/
def CreateGrant (p : Provider) (req : Request) : Response × List PCall :=
  if ¬ p.isUserAuthenticated then
    (Response.redirect 302 (p.loginURL req.url),
      [PCall.isUserAuthenticated, PCall.loginURL req.url])
  else
    let params := buildParams req
    match authCodeGrant1 p params with
    | (Except.error resp, calls) => (resp, PCall.isUserAuthenticated :: calls)
    | (Except.ok authzData, calls) =>
      if req.method = "GET" then
        (Response.html 200 authzData, PCall.isUserAuthenticated :: calls)
      else if (getParam params "response_type").getD "" = "token" then
        let r := implicitGrant p authzData
        (r.1, PCall.isUserAuthenticated :: calls ++ r.2)
      else
        match p.genAuthzCode authzData.client authzData.scopes with
        | Except.error e =>
          (Response.html 200 ⟨default, [], [ErrServerError "" e], "", ""⟩,
            PCall.isUserAuthenticated :: calls ++ [PCall.genAuthzCode authzData.client.id])
        | Except.ok grantCode =>
          let u := authzData.client.redirectURL
          let q := valuesSet (valuesSet (parseQuery u.rawQuery) "code" grantCode.code)
            "state" authzData.state
          let u2 : URL := ⟨u.scheme, u.hostPath, valuesEncode q, u.fragment⟩
          (Response.redirect 302 (urlString u2),
            PCall.isUserAuthenticated :: calls ++ [PCall.genAuthzCode authzData.client.id])

/-- Whether an authCodeGrant1 outcome delivered its failure as a rendered
HTML consent form. -/
def rendersError (o : Except Response AuthzData) : Bool :=
  match o with
  | Except.error (Response.html _ _) => true
  | _ => false

/-- Whether an authCodeGrant1 outcome delivered its failure as an HTTP
redirect. -/
def redirectsError (o : Except Response AuthzData) : Bool :=
  match o with
  | Except.error (Response.redirect _ _) => true
  | _ => false

/-- Claim-side condition: a validation failure occurring before a trusted
redirect target is established — missing client_id, client lookup failure
(which, in the embedded call shape, also absorbs the not-found case),
unparsable redirect_uri, non-https redirect_uri, or redirect_uri mismatch. -/
def preTargetFailure (p : Provider) (params : List (String × String)) : Bool :=
  let clientID := (getParam params "client_id").getD ""
  if clientID = "" then true
  else
    match p.clientInfo clientID with
    | Except.error _ => true
    | Except.ok cinfo =>
      if cinfoAddrIsNil then true
      else
        match getParam params "redirect_uri" with
        | some u =>
          match urlParse u with
          | none => true
          | some r =>
            if r.scheme ≠ "https" then true
            else if urlString r ≠ urlString cinfo.redirectURL then true
            else false
        | none =>
          if cinfo.redirectURL.scheme ≠ "https" then true
          else if urlString cinfo.redirectURL ≠ urlString cinfo.redirectURL then true
          else false

/-- Claim-side condition: a validation failure occurring after the redirect
target is validated — missing state, unsupported response_type, missing
scope, or scope-parse error — with every earlier check passing. -/
def postTargetFailure (p : Provider) (params : List (String × String)) : Bool :=
  if preTargetFailure p params then false
  else
    let state := (getParam params "state").getD ""
    let grantType := (getParam params "response_type").getD ""
    let scope := (getParam params "scope").getD ""
    if state = "" then true
    else if grantType ≠ "code" ∧ grantType ≠ "token" then true
    else if scope = "" then true
    else
      match p.scopesInfo scope with
      | Except.error _ => true
      | Except.ok _ => false

/-- The trusted redirect target: present exactly when every pre-target check
passes, and then equal to the validated redirect URL (which byte-equals the
registered one). -/
def trustedRedirectTarget (p : Provider) (params : List (String × String)) : Option URL :=
  let clientID := (getParam params "client_id").getD ""
  if clientID = "" then none
  else
    match p.clientInfo clientID with
    | Except.error _ => none
    | Except.ok cinfo =>
      if cinfoAddrIsNil then none
      else
        match getParam params "redirect_uri" with
        | some u =>
          match urlParse u with
          | none => none
          | some r =>
            if r.scheme ≠ "https" then none
            else if urlString r ≠ urlString cinfo.redirectURL then none
            else some r
        | none =>
          if cinfo.redirectURL.scheme ≠ "https" then none
          else if urlString cinfo.redirectURL ≠ urlString cinfo.redirectURL then none
          else some cinfo.redirectURL

/-- Registered redirect URL of the test client used by the repository's
tests. -/
def testRedirectURL : URL := ⟨"https", "example.com/cb", "", ""⟩

/-- Test client fixture mirroring the repository's test provider. -/
def testClient : Client :=
  ⟨"test_client_id", "Test Client", "Testing client", "", "", testRedirectURL⟩

/-- Scope fixture: the read write identity scopes of the repository's
tests. -/
def testScopes : List Scope :=
  [⟨"read", "read access"⟩, ⟨"write", "write access"⟩, ⟨"identity", "identity access"⟩]

/-- Access token fixture: bearer token with the 600 second default
lifetime. -/
def testToken : Token := ⟨"test-token-value", "bearer", 600, testScopes⟩

/-- In-memory Provider fixture mirroring the repository's test provider:
one registered client, all scopes recognized, deterministic code and token
minting. -/
def testProvider : Provider where
  isUserAuthenticated := true
  loginURL := fun ref => "https://accounts.example.com/login?redirect_to=" ++ ref
  clientInfo := fun clientID =>
    if clientID = "test_client_id" then Except.ok testClient
    else Except.error "client not found"
  scopesInfo := fun _ => Except.ok testScopes
  genAuthzCode := fun _ _ => Except.ok ⟨"authz-code-1"⟩
  genToken := fun _ _ _ => Except.ok testToken

/-- The well-formed authorization request of the repository's happy-path
test. -/
def testRequest (method : String) : Request :=
  ⟨method, "https://example.com/oauth2/authzs",
    [("client_id", "test_client_id"), ("state", "state-test"),
      ("redirect_uri", "https://example.com/cb"),
      ("scope", "read write identity"), ("response_type", "code")]⟩

/-- Validated AuthzData of the happy implicit-flow request. -/
def testAuthzData : AuthzData := ⟨testClient, testScopes, [], "token", "state-test"⟩

/-- Modelled from the spec: lifecycle states of an authorization grant code
(the token endpoint that redeems codes, tokens.go, is not under src — only
its tests are). -/
inductive GrantState where
  | issued
  | redeemed
  | revoked
deriving DecidableEq, Repr

/-- Modelled from the spec: a stored token and its back-reference to the
grant code it was issued from, with its revocation flag. -/
structure TokenRecord where
  value : String
  grantCode : String
  revoked : Bool
deriving DecidableEq, Repr

/-- Modelled from the spec: the Provider-side persistent store the token
endpoint manipulates — grant states, issued tokens, and a counter for fresh
token values. -/
structure TokenStore where
  grants : List (String × GrantState)
  tokens : List TokenRecord
  counter : Nat
deriving DecidableEq, Repr

/-- Lifecycle state of a grant code in the store. -/
def grantStateOf (st : TokenStore) (c : String) : Option GrantState :=
  ((st.grants.find? (fun g => g.1 = c)).map (fun g => g.2))

/-- Set the lifecycle state of a grant code (no-op for unknown codes). -/
def setGrantState (st : TokenStore) (c : String) (gs : GrantState) : TokenStore :=
  ⟨st.grants.map (fun g => if g.1 = c then (c, gs) else g), st.tokens, st.counter⟩

/-- Revoke every token issued from the given grant code. -/
def revokeTokensOf (st : TokenStore) (c : String) : TokenStore :=
  ⟨st.grants,
    st.tokens.map (fun t => if t.grantCode = c then ⟨t.value, t.grantCode, true⟩ else t),
    st.counter⟩

/-- Outcome of presenting a grant code at the token endpoint. -/
inductive RedeemResult where
  | success (tokenValue : String)
  | failure (errorCode : String) (errorDesc : String)
deriving DecidableEq, Repr

/-- Modelled from the spec: the token endpoint's redemption of an
authorization code (tokens.go is not under src).  A code in the issued state
is exchanged exactly once for a fresh token bound to it; any other
presentation fails with the invalid_grant JSON error, moves the grant to
revoked, and cascade-revokes every token issued from it. -/
def redeemCode (st : TokenStore) (c : String) : TokenStore × RedeemResult :=
  match grantStateOf st c with
  | some GrantState.issued =>
    let tokenValue := "token-" ++ Nat.repr st.counter
    (⟨(setGrantState st c GrantState.redeemed).grants,
      ⟨tokenValue, c, false⟩ :: st.tokens, st.counter + 1⟩,
      RedeemResult.success tokenValue)
  | _ =>
    (revokeTokensOf (setGrantState st c GrantState.revoked) c,
      RedeemResult.failure "invalid_grant" "Grant code was revoked, expired or already used.")

/-- A sequence of n presentations of the same grant code, returning the final
store and the list of outcomes. -/
def redeemTrace (st : TokenStore) (c : String) : Nat → TokenStore × List RedeemResult
  | 0 => (st, [])
  | n + 1 =>
    let r := redeemCode st c
    let rest := redeemTrace r.1 c n
    (rest.1, r.2 :: rest.2)

/-- Number of successful redemptions in a list of outcomes. -/
def successCount (rs : List RedeemResult) : Nat :=
  rs.countP (fun r => match r with | RedeemResult.success _ => true | _ => false)

/-- Authorization request whose redirect_uri points at an attacker host
while everything else is valid. -/
def requestWithMismatchedURI : Request :=
  ⟨"POST", "https://example.com/oauth2/authzs",
    [("client_id", "test_client_id"), ("state", "state-test"),
      ("redirect_uri", "https://attacker.com/cb"),
      ("scope", "read write identity"), ("response_type", "code")]⟩

/-- Authorization request whose redirect_uri is plaintext http. -/
def requestWithHttpURI : Request :=
  ⟨"GET", "https://example.com/oauth2/authzs",
    [("client_id", "test_client_id"), ("state", "state-test"),
      ("redirect_uri", "http://attacker.com/cb"),
      ("scope", "read write identity"), ("response_type", "code")]⟩

/-- Authorization request omitting the redirect_uri parameter entirely. -/
def requestWithoutRedirectURI : Request :=
  ⟨"GET", "https://example.com/oauth2/authzs",
    [("client_id", "test_client_id"), ("state", "state-test"),
      ("scope", "read write identity"), ("response_type", "code")]⟩

/-- Authorization request omitting the state parameter. -/
def requestWithoutState : Request :=
  ⟨"GET", "https://example.com/oauth2/authzs",
    [("client_id", "test_client_id"),
      ("redirect_uri", "https://example.com/cb"),
      ("scope", "read write identity"), ("response_type", "code")]⟩

/-- Authorization request omitting the scope parameter. -/
def requestWithoutScope : Request :=
  ⟨"GET", "https://example.com/oauth2/authzs",
    [("client_id", "test_client_id"), ("state", "state-test"),
      ("redirect_uri", "https://example.com/cb"), ("response_type", "code")]⟩

/-- The implicit-flow success Location the specification prescribes: single
hash, then the encoded pairs. -/
def specSingleHashLocation : String :=
  "https://example.com/cb#access_token=test-token-value&expires_in=600&scope=read+write+identity&state=state-test&token_type=bearer"

/-- The implicit-flow success Location the source actually produces: the
stored fragment itself begins with a hash, which URL.String percent-escapes,
so a percent-escaped hash follows the fragment separator. -/
def sourceEscapedHashLocation : String :=
  "https://example.com/cb#%23access_token=test-token-value&expires_in=600&scope=read+write+identity&state=state-test&token_type=bearer"

/-- The missing-state redirect Location the repository's tests expect: the
registered URI with the invalid_request error encoded in the query. -/
def expectedStateErrorLocation : String :=
  "https://example.com/cb?error=invalid_request&error_description=state+parameter+is+required+by+this+authorization+server."

/-- The errors carried by a rendered HTML outcome (empty for redirects and
successes). -/
def errorsOf (o : Except Response AuthzData) : List AuthzError :=
  match o with
  | Except.error (Response.html _ d) => d.errors
  | _ => []

theorem getParam_clientId (req : Request) :
    getParam (buildParams req) "client_id" = some (formValue req "client_id") := rfl

theorem getParam_state (req : Request) :
    getParam (buildParams req) "state" = some (formValue req "state") := rfl

theorem getParam_redirectUri (req : Request) :
    getParam (buildParams req) "redirect_uri" = some (formValue req "redirect_uri") := rfl

theorem getParam_scope (req : Request) :
    getParam (buildParams req) "scope" = some (formValue req "scope") := rfl

theorem getParam_responseType (req : Request) :
    getParam (buildParams req) "response_type" = some (formValue req "response_type") := rfl

theorem authCodeGrant1Cont_readOnly (p : Provider) (params : List (String × String))
    (clientID : String) (cinfo : Client) (redirectURL : URL) :
    ((authCodeGrant1Cont p params clientID cinfo redirectURL).2.filter isGenCall) = [] := by
  simp only [authCodeGrant1Cont]
  repeat' split
  all_goals rfl

theorem authCodeGrant1_readOnly (p : Provider) (params : List (String × String)) :
    ((authCodeGrant1 p params).2.filter isGenCall) = [] := by
  simp only [authCodeGrant1]
  repeat' split
  all_goals first
  | rfl
  | apply authCodeGrant1Cont_readOnly

/-- C10: for every GET request to the authorization endpoint, regardless of
parameter validity, the handler never calls GenAuthzCode or GenToken — GET
handling only reads via the Provider and renders or redirects, leaving
persistent grant and token state unchanged. -/
theorem get_requests_never_mint (p : Provider) (req : Request) (h : req.method = "GET") :
    ((CreateGrant p req).2.filter isGenCall) = [] := by
  have hro := authCodeGrant1_readOnly p (buildParams req)
  simp only [CreateGrant]
  split
  · simp [isGenCall]
  · split
    · next resp calls heq =>
      rw [heq] at hro
      simp only [List.filter] at hro
      simp [isGenCall, hro]
    · next authzData calls heq =>
      rw [heq] at hro
      simp only [List.filter] at hro
      simp [h, isGenCall, hro]

/-- Witness for C10: the happy-path GET request mints nothing. -/
theorem get_requests_never_mint_witness :
    ((CreateGrant testProvider (testRequest "GET")).2.filter isGenCall) = [] :=
  get_requests_never_mint testProvider (testRequest "GET") rfl

/-- C3: whenever the supplied redirect_uri parses but is not byte-equal to
the client's registered redirect URI, the handler renders an HTML response
carrying the access_denied mismatch error — it does not redirect — and no
grant is minted: neither GenAuthzCode nor GenToken is called. -/
theorem redirect_uri_mismatch_renders_access_denied (p : Provider) (req : Request)
    (cinfo : Client) (r : URL)
    (hauth : p.isUserAuthenticated = true)
    (hcid : formValue req "client_id" ≠ "")
    (hci : p.clientInfo (formValue req "client_id") = Except.ok cinfo)
    (hparse : urlParse (formValue req "redirect_uri") = some r)
    (hscheme : r.scheme = "https")
    (hmismatch : urlString r ≠ urlString cinfo.redirectURL) :
    (CreateGrant p req).1 = Response.html 200 ⟨default, [], [ErrRedirectURLMismatch], "", ""⟩ ∧
    ErrRedirectURLMismatch.code = "access_denied" ∧
    ((CreateGrant p req).2.filter isGenCall) = [] := by
  simp only [CreateGrant, authCodeGrant1, authCodeGrant1Cont, getParam_clientId,
    getParam_redirectUri, cinfoAddrIsNil, hauth, hci, hparse, Option.getD_some]
  simp [hcid, hscheme, hmismatch, isGenCall, ErrRedirectURLMismatch]

/-- Witness for C3: the attacker-redirect POST of the repository's tests. -/
theorem redirect_uri_mismatch_renders_access_denied_witness :
    (CreateGrant testProvider requestWithMismatchedURI).1 =
      Response.html 200 ⟨default, [], [ErrRedirectURLMismatch], "", ""⟩ ∧
    ErrRedirectURLMismatch.code = "access_denied" ∧
    ((CreateGrant testProvider requestWithMismatchedURI).2.filter isGenCall) = [] :=
  redirect_uri_mismatch_renders_access_denied testProvider requestWithMismatchedURI
    testClient ⟨"https", "attacker.com/cb", "", ""⟩
    rfl (by decide) rfl rfl rfl (by decide)

/-- C4: whenever the supplied redirect_uri parses with a scheme other than
https, the handler renders an HTML response carrying the access_denied
invalid-redirect error, and it does so before any Provider state mutation:
neither GenAuthzCode nor GenToken is called. -/
theorem non_https_redirect_renders_access_denied (p : Provider) (req : Request)
    (cinfo : Client) (r : URL)
    (hauth : p.isUserAuthenticated = true)
    (hcid : formValue req "client_id" ≠ "")
    (hci : p.clientInfo (formValue req "client_id") = Except.ok cinfo)
    (hparse : urlParse (formValue req "redirect_uri") = some r)
    (hscheme : r.scheme ≠ "https") :
    (CreateGrant p req).1 = Response.html 200 ⟨default, [], [ErrRedirectURLInvalid], "", ""⟩ ∧
    ErrRedirectURLInvalid.code = "access_denied" ∧
    ((CreateGrant p req).2.filter isGenCall) = [] := by
  simp only [CreateGrant, authCodeGrant1, authCodeGrant1Cont, getParam_clientId,
    getParam_redirectUri, cinfoAddrIsNil, hauth, hci, hparse, Option.getD_some]
  simp [hcid, hscheme, isGenCall, ErrRedirectURLInvalid]

/-- Witness for C4: the plaintext-redirect request of the repository's
tests. -/
theorem non_https_redirect_renders_access_denied_witness :
    (CreateGrant testProvider requestWithHttpURI).1 =
      Response.html 200 ⟨default, [], [ErrRedirectURLInvalid], "", ""⟩ ∧
    ErrRedirectURLInvalid.code = "access_denied" ∧
    ((CreateGrant testProvider requestWithHttpURI).2.filter isGenCall) = [] :=
  non_https_redirect_renders_access_denied testProvider requestWithHttpURI
    testClient ⟨"http", "attacker.com/cb", "", ""⟩
    rfl (by decide) rfl rfl (by decide)

/-- C7 (code bug): a request that omits redirect_uri entirely is NOT served
from the client's registered redirect URI.  CreateGrant stores FormValue's
empty-string result under the redirect_uri key, so the comma-ok lookup in
authCodeGrant1 always succeeds, the registered-URI fallback branch is dead,
the empty string parses to a URL with an empty scheme, and the request is
rejected with the rendered access_denied invalid-redirect error instead of
proceeding to the consent form. -/
theorem omitted_redirect_uri_not_fallback :
    (CreateGrant testProvider requestWithoutRedirectURI).1 =
      Response.html 200 ⟨default, [], [ErrRedirectURLInvalid], "", ""⟩ ∧
    (CreateGrant testProvider requestWithoutRedirectURI).1 ≠
      Response.html 200 ⟨testClient, testScopes, [], "code", "state-test"⟩ := by
  exact ⟨rfl, by decide⟩

/-- C8 (code bug): with a valid client, the registered https redirect URI
and a missing state parameter, the handler does 302-redirect to the
registered URI, but the Location carries no query at all: EncodeErrInURI
mutates the copy returned by Query() and the source never writes it back,
so neither error=invalid_request nor error_description reaches the
redirect.  The second conjunct shows the Location differs from the one the
repository's own tests expect; the third shows the same for a missing
scope. -/
theorem missing_state_redirect_carries_no_error :
    (CreateGrant testProvider requestWithoutState).1 =
      Response.redirect 302 "https://example.com/cb" ∧
    (CreateGrant testProvider requestWithoutState).1 ≠
      Response.redirect 302 expectedStateErrorLocation ∧
    (CreateGrant testProvider requestWithoutScope).1 =
      Response.redirect 302 "https://example.com/cb" := by
  exact ⟨rfl, by decide, rfl⟩

theorem escapeFragment_hash_cons (s : String) :
    escapeFragment ("#" ++ s) = "%23" ++ escapeFragment s := rfl

set_option maxRecDepth 8192 in
/-- C5 counterexample: the implicit-flow success Location is not the
registered URI followed by a single hash and the encoded pairs — the source
sets u.Fragment to a string already beginning with a hash, and URL rendering
percent-escapes the fragment, so after the fragment separator the Location
carries the escaped hash, not the pairs. -/
theorem implicit_location_not_single_hash :
    (implicitGrant testProvider testAuthzData).1 ≠
      Response.redirect 302 specSingleHashLocation ∧
    (implicitGrant testProvider testAuthzData).1 =
      Response.redirect 302 sourceEscapedHashLocation := by
  exact ⟨by decide, rfl⟩

/-- C5 amended: for every successful implicit-flow consent submission, the
302 Location equals the registered redirect URI followed by the fragment
separator hash, then the percent-escape of the hash the source prepends to
the stored fragment, then the fragment-escaped URL-encoded pairs
access_token, expires_in, scope, state and token_type (sorted key order). -/
theorem implicit_location_escaped_hash (p : Provider) (d : AuthzData) (tok : Token)
    (hfrag : d.client.redirectURL.fragment = "")
    (hgen : p.genToken TokenType.access d.scopes d.client = Except.ok tok) :
    (implicitGrant p d).1 = Response.redirect 302
      (urlString d.client.redirectURL ++ "#%23"
        ++ escapeFragment (valuesEncode (implicitQuery tok d.state))) := by
  have hne : ("#" ++ valuesEncode (implicitQuery tok d.state) : String) ≠ "" := by
    intro hcontra
    have hdat := congrArg String.data hcontra
    simp [String.data_append] at hdat
  have hh : ∀ X : String, "#" ++ ("%23" ++ X) = "#%23" ++ X := fun X =>
    (String.append_assoc "#" "%23" X).symm
  simp only [implicitGrant, hgen]
  simp only [urlString, hfrag, if_neg hne]
  simp [escapeFragment_hash_cons, String.append_assoc, hh]

/-- Witness for C5: the escaped-hash Location at the test fixtures. -/
theorem implicit_location_escaped_hash_witness :
    (implicitGrant testProvider testAuthzData).1 = Response.redirect 302
      (urlString testAuthzData.client.redirectURL ++ "#%23"
        ++ escapeFragment (valuesEncode (implicitQuery testToken testAuthzData.state))) :=
  implicit_location_escaped_hash testProvider testAuthzData testToken rfl rfl

/-- C6: the implicit flow's fragment query consists of exactly the
access_token, token_type, expires_in, scope and state parameters — never a
refresh_token — and every implicitGrant response either carries exactly
that encoded query in the fragment (success) or leaves the redirect URL
untouched (token-minting error, where the dropped EncodeErrInURI copy adds
nothing). -/
theorem implicit_flow_emits_no_refresh_token (p : Provider) (d : AuthzData) (tok : Token) :
    (implicitQuery tok d.state).map Prod.fst =
      ["access_token", "token_type", "expires_in", "scope", "state"] ∧
    "refresh_token" ∉ (implicitQuery tok d.state).map Prod.fst ∧
    (p.genToken TokenType.access d.scopes d.client = Except.ok tok →
      (implicitGrant p d).1 = Response.redirect 302 (urlString
        ⟨d.client.redirectURL.scheme, d.client.redirectURL.hostPath,
          d.client.redirectURL.rawQuery,
          "#" ++ valuesEncode (implicitQuery tok d.state)⟩)) ∧
    (∀ e, p.genToken TokenType.access d.scopes d.client = Except.error e →
      (implicitGrant p d).1 = Response.redirect 302 (urlString d.client.redirectURL)) := by
  refine ⟨rfl, ?_, ?_, ?_⟩
  · rw [show (implicitQuery tok d.state).map Prod.fst =
      ["access_token", "token_type", "expires_in", "scope", "state"] from rfl]
    decide
  · intro h
    simp only [implicitGrant, h]
  · intro e h
    simp only [implicitGrant, h]

/-- Witness for C6: the success-path Location at the test fixtures. -/
theorem implicit_flow_emits_no_refresh_token_witness :
    (implicitGrant testProvider testAuthzData).1 = Response.redirect 302 (urlString
      ⟨testAuthzData.client.redirectURL.scheme, testAuthzData.client.redirectURL.hostPath,
        testAuthzData.client.redirectURL.rawQuery,
        "#" ++ valuesEncode (implicitQuery testToken testAuthzData.state)⟩) :=
  (implicit_flow_emits_no_refresh_token testProvider testAuthzData testToken).2.2.1 rfl

/-- C9 (code bug): the source guards its client-not-found render with a
condition on the address of a local variable that is constantly false, so
the distinct client-not-found error is never rendered for any input;
whenever the client lookup fails — the only observable not-found signal in
the embedded call shape — the render carries the server-error instead, so
the two cases the claim distinguishes collapse into one. -/
theorem notFound_not_in_cont (p : Provider) (params : List (String × String))
    (clientID : String) (cinfo : Client) (redirectURL : URL) :
    ErrClientIDNotFound ∉ errorsOf (authCodeGrant1Cont p params clientID cinfo redirectURL).1 := by
  simp only [authCodeGrant1Cont]
  repeat' split
  all_goals simp [errorsOf, ErrClientIDNotFound, ErrRedirectURLInvalid,
    ErrRedirectURLMismatch, ErrServerError]

theorem client_not_found_never_rendered (p : Provider) (params : List (String × String)) :
    ErrClientIDNotFound ∉ errorsOf (authCodeGrant1 p params).1 ∧
    (∀ e,
      (getParam params "client_id").getD "" ≠ "" →
      p.clientInfo ((getParam params "client_id").getD "") = Except.error e →
      authCodeGrant1 p params =
        (Except.error (Response.html 200 ⟨default, [], [ErrServerError "" e], "", ""⟩),
          [PCall.clientInfo ((getParam params "client_id").getD "")])) := by
  constructor
  · simp only [authCodeGrant1, cinfoAddrIsNil]
    repeat' split
    all_goals first
    | apply notFound_not_in_cont
    | (simp [errorsOf, ErrClientIDNotFound, ErrClientIDMissing, ErrServerError,
        ErrRedirectURLInvalid, ErrRedirectURLMismatch]
       try simp_all)
  · intro e hne hci
    simp only [authCodeGrant1, cinfoAddrIsNil]
    simp [hne, hci]

/-- Witness for C9: an unknown client id renders the server-error, not the
client-not-found error. -/
theorem client_not_found_never_rendered_witness :
    authCodeGrant1 testProvider (buildParams
      ⟨"GET", "https://example.com/oauth2/authzs", [("client_id", "unknown_client")]⟩) =
      (Except.error (Response.html 200
        ⟨default, [], [ErrServerError "" "client not found"], "", ""⟩),
        [PCall.clientInfo "unknown_client"]) :=
  (client_not_found_never_rendered testProvider (buildParams
      ⟨"GET", "https://example.com/oauth2/authzs", [("client_id", "unknown_client")]⟩)).2
    "client not found" (by decide) rfl

set_option maxHeartbeats 1000000 in
/-- C1: validation failures in authCodeGrant1 partition by delivery channel
around the establishment of the trusted redirect target — an outcome is a
rendered HTML failure exactly when a pre-target check fails (missing
client_id, client lookup failure, unparsable redirect_uri, non-https
redirect_uri, redirect_uri mismatch), it is a redirect failure exactly when
all pre-target checks pass and a post-target check fails (missing state,
unsupported response_type, missing scope, scope-parse error), and every
redirect goes to the validated trusted target. -/
theorem authz_failure_channel (p : Provider) (params : List (String × String)) :
    rendersError (authCodeGrant1 p params).1 = preTargetFailure p params ∧
    redirectsError (authCodeGrant1 p params).1 = postTargetFailure p params ∧
    (∀ status loc, (authCodeGrant1 p params).1 = Except.error (Response.redirect status loc) →
      (trustedRedirectTarget p params).map urlString = some loc) := by
  refine ⟨?_, ?_, ?_⟩
  · simp only [authCodeGrant1, authCodeGrant1Cont, preTargetFailure, cinfoAddrIsNil]
    repeat' split
    all_goals simp_all [rendersError]
  · simp only [authCodeGrant1, authCodeGrant1Cont, postTargetFailure, preTargetFailure,
      cinfoAddrIsNil]
    repeat' split
    all_goals simp_all [redirectsError]
  · intro status loc h
    simp only [authCodeGrant1, authCodeGrant1Cont, cinfoAddrIsNil] at h
    simp only [trustedRedirectTarget, cinfoAddrIsNil]
    repeat' split at h
    all_goals simp_all

/-- Witness for C1: the missing-state request redirects, and the redirect
Location is the validated trusted target. -/
theorem authz_failure_channel_witness :
    (trustedRedirectTarget testProvider (buildParams requestWithoutState)).map urlString =
      some "https://example.com/cb" :=
  (authz_failure_channel testProvider (buildParams requestWithoutState)).2.2
    302 "https://example.com/cb" rfl

theorem find_set_grants (l : List (String × GrantState)) (c : String) (gs : GrantState) :
    (l.map (fun g => if g.1 = c then (c, gs) else g)).find? (fun g => g.1 = c) =
      (l.find? (fun g => g.1 = c)).map (fun _ => (c, gs)) := by
  induction l with
  | nil => rfl
  | cons hd tl ih =>
    by_cases h : hd.1 = c
    · simp [List.find?_cons, h]
    · simp [List.find?_cons, h, ih]

theorem grantStateOf_redeemCode (st : TokenStore) (c : String) :
    grantStateOf (redeemCode st c).1 c ≠ some GrantState.issued := by
  unfold redeemCode
  split
  all_goals
    simp only [grantStateOf, setGrantState, revokeTokensOf, find_set_grants]
    cases hf : st.grants.find? (fun g => g.1 = c) <;> simp

theorem redeemCode_not_issued (st : TokenStore) (c : String)
    (h : grantStateOf st c ≠ some GrantState.issued) :
    (redeemCode st c).2 = RedeemResult.failure "invalid_grant"
      "Grant code was revoked, expired or already used." := by
  unfold redeemCode
  split
  · next hh => exact absurd hh h
  · rfl

theorem successCount_trace_notIssued (c : String) :
    ∀ (n : Nat) (st : TokenStore), grantStateOf st c ≠ some GrantState.issued →
      successCount (redeemTrace st c n).2 = 0 := by
  intro n
  induction n with
  | zero => intro st _; rfl
  | succ m ih =>
    intro st h
    have h1 := redeemCode_not_issued st c h
    have h2 := ih (redeemCode st c).1 (grantStateOf_redeemCode st c)
    simp only [redeemTrace, successCount, List.countP_cons] at h2 ⊢
    simp [h1, h2]

theorem revokeTokensOf_marks (st : TokenStore) (c : String) :
    ∀ t ∈ (revokeTokensOf st c).tokens, t.grantCode = c → t.revoked = true := by
  intro t ht hc
  simp only [revokeTokensOf, List.mem_map] at ht
  obtain ⟨s, hs, hst⟩ := ht
  by_cases h : s.grantCode = c
  · subst hst; simp [h]
  · subst hst
    simp only [if_neg h] at hc ⊢
    exact absurd hc h

theorem redeemCode_notIssued_tokens (st : TokenStore) (c : String)
    (h : grantStateOf st c ≠ some GrantState.issued) :
    ∀ t ∈ (redeemCode st c).1.tokens, t.grantCode = c → t.revoked = true := by
  unfold redeemCode
  split
  · next hh => exact absurd hh h
  · exact revokeTokensOf_marks _ c

/-- C2 (spec-modelled, tokens.go is not under src): a grant code admits at
most one successful token exchange in any sequence of presentations, and
when the code starts out issued, the first presentation succeeds, the
second fails with the invalid_grant JSON error, and after it every token
issued from the code is revoked. -/
theorem grant_code_one_shot (st : TokenStore) (c : String) (n : Nat) :
    successCount (redeemTrace st c n).2 ≤ 1 ∧
    (grantStateOf st c = some GrantState.issued →
      (∃ v, (redeemCode st c).2 = RedeemResult.success v) ∧
      (redeemCode (redeemCode st c).1 c).2 = RedeemResult.failure "invalid_grant"
        "Grant code was revoked, expired or already used." ∧
      ∀ t ∈ (redeemCode (redeemCode st c).1 c).1.tokens,
        t.grantCode = c → t.revoked = true) := by
  constructor
  · cases n with
    | zero => simp [redeemTrace, successCount]
    | succ m =>
      have h0 := successCount_trace_notIssued c m (redeemCode st c).1
        (grantStateOf_redeemCode st c)
      simp only [redeemTrace, successCount, List.countP_cons] at h0 ⊢
      rw [h0]
      split <;> simp
  · intro h
    refine ⟨?_, ?_, ?_⟩
    · refine ⟨"token-" ++ Nat.repr st.counter, ?_⟩
      simp [redeemCode, h]
    · exact redeemCode_not_issued (redeemCode st c).1 c (grantStateOf_redeemCode st c)
    · exact redeemCode_notIssued_tokens (redeemCode st c).1 c (grantStateOf_redeemCode st c)

/-- Witness for C2: a store holding one issued grant admits one success, and
the second presentation fails with invalid_grant. -/
theorem grant_code_one_shot_witness :
    successCount (redeemTrace ⟨[("c1", GrantState.issued)], [], 0⟩ "c1" 2).2 ≤ 1 ∧
    (redeemCode (redeemCode ⟨[("c1", GrantState.issued)], [], 0⟩ "c1").1 "c1").2 =
      RedeemResult.failure "invalid_grant"
        "Grant code was revoked, expired or already used." :=
  ⟨(grant_code_one_shot ⟨[("c1", GrantState.issued)], [], 0⟩ "c1" 2).1,
    (((grant_code_one_shot ⟨[("c1", GrantState.issued)], [], 0⟩ "c1" 2).2 rfl).2).1⟩
